import Mathlib

/-!
Shallow embedding of the comprehensive scoring engine of the auto_digest
repository (`src/summarizer/scoring_system.py`, class `ComprehensiveScorer`),
together with the fallback subjective-score bundle built by
`src/summarizer/gpt_summarizer.py` (`_create_fallback_summary`).

Modelling conventions:
* Python dictionaries holding item metadata are association lists over a
  dynamic value type `PyVal` (numbers, strings, lists, `None`), so that the
  dynamic-typing behaviour of the source — including the `TypeError` /
  `AttributeError` raised on malformed fields — is captured.  Operations that
  can raise return `Except String`.
* Python numbers (the star counts and the LLM scores, declared `float`) are
  modelled as exact rationals `ℚ`.
* `str.lower()` is modelled character-wise with `Char.toLower` (all the
  organisation / conference fragments in the tables are ASCII).
* `round(x, 2)` is Python 3 rounding: round half to even, modelled exactly on
  rationals by `roundHalfEven`.
-/

/-- Character-wise lower-casing, modelling Python `str.lower()`. -/
def lowerStr (s : String) : String := String.mk (s.data.map Char.toLower)

/-- `startsWithChars n h` is true when `n` is an initial segment of `h`. -/
def startsWithChars : List Char → List Char → Bool
  | [], _ => true
  | _ :: _, [] => false
  | a :: as, b :: bs => a == b && startsWithChars as bs

/-- `occursInChars n h` is true when `n` occurs contiguously inside `h`. -/
def occursInChars (n : List Char) : List Char → Bool
  | [] => startsWithChars n []
  | l@(_ :: t) => startsWithChars n l || occursInChars n t

/-- Python `needle in hay` on two strings: substring containment. -/
def pyIn (needle hay : String) : Bool := occursInChars needle.data hay.data

/-- Dynamic Python values, as far as the scoring engine inspects them. -/
inductive PyVal where
  | none
  | num (q : ℚ)
  | str (s : String)
  | list (xs : List PyVal)

/-- A Python dict with string keys, as an association list. -/
def PyDict := List (String × PyVal)

/-- Python `d.get(key, default)`. -/
def dget (d : PyDict) (k : String) (dflt : PyVal) : PyVal :=
  match List.find? (fun p => p.1 == k) d with
  | some p => p.2
  | Option.none => dflt

/-- Python `v == "s"` for a string literal: `True` only for an equal string,
`False` (never an error) for any other value. -/
def isStrEq (v : PyVal) (s : String) : Bool :=
  match v with
  | .str t => t == s
  | _ => false

/-- Python `v >= q` against a number: a genuine comparison for numbers,
`TypeError` for every other value. -/
def pyGe (v : PyVal) (q : ℚ) : Except String Bool :=
  match v with
  | .num n => .ok (decide (n ≥ q))
  | _ => .error "TypeError"

/-- Python `v.lower()`: lower-cases a string, `AttributeError` otherwise. -/
def pyLowerMethod (v : PyVal) : Except String String :=
  match v with
  | .str s => .ok (lowerStr s)
  | _ => .error "AttributeError"

/-- Python iteration over a value: lists yield their elements, strings yield
their characters as one-character strings, everything else raises. -/
def pyIter (v : PyVal) : Except String (List PyVal) :=
  match v with
  | .list xs => .ok xs
  | .str s => .ok (s.data.map (fun c => PyVal.str (String.mk [c])))
  | _ => .error "TypeError"

/-- Python `needle in v` for a string needle: substring test on strings,
membership test on lists, `TypeError` otherwise. -/
def pyInVal (needle : String) (v : PyVal) : Except String Bool :=
  match v with
  | .str s => .ok (pyIn needle s)
  | .list xs => .ok (xs.any (fun x => isStrEq x needle))
  | _ => .error "TypeError"

/-- Python truthiness of a value. -/
def pyTruthy (v : PyVal) : Bool :=
  match v with
  | .none => false
  | .num q => decide (q ≠ 0)
  | .str s => !(s == "")
  | .list xs => !xs.isEmpty

/-- Python `len(v)`: defined for strings and lists, `TypeError` otherwise. -/
def pyLen (v : PyVal) : Except String ℕ :=
  match v with
  | .str s => .ok s.length
  | .list xs => .ok xs.length
  | _ => .error "TypeError"

/-- Extract a list of strings from a list of values, raising on the first
non-string element, as `str.join` does. -/
def strListOfVals : List PyVal → Except String (List String)
  | [] => .ok []
  | .str s :: rest => Except.map (fun l => s :: l) (strListOfVals rest)
  | _ :: _ => .error "TypeError"

/-- Python `str.join` of `v` with a single-space separator. -/
def pyJoinSpace (v : PyVal) : Except String String :=
  match v with
  | .list xs => Except.map (String.intercalate " ") (strListOfVals xs)
  | .str s => .ok (String.intercalate " " (s.data.map (fun c => String.mk [c])))
  | _ => .error "TypeError"

/-- Short-circuiting monadic `any`, modelling the Python `any(...)` builtin over a
generator whose body may raise. -/
def pyAnyM : List PyVal → (PyVal → Except String Bool) → Except String Bool
  | [], _ => .ok false
  | x :: rest, f => do
    let b ← f x
    if b then pure true else pyAnyM rest f

/-- `ComprehensiveScorer.self.weights`, the fixed weight table. -/
def weights : List (String × ℚ) :=
  [("popularity", 0.25),
   ("technical_innovation", 0.20),
   ("application_value", 0.10),
   ("readability", 0.15),
   ("experimental_thoroughness", 0.15),
   ("author_influence", 0.15)]

/-- `ComprehensiveScorer.self.influential_orgs` (a Python set; since every
match contributes the same fixed bonus, iteration order is irrelevant and a
list is a faithful model). -/
def influential_orgs : List String :=
  ["google", "microsoft", "meta", "openai", "anthropic", "deepmind",
   "stanford", "mit", "berkeley", "cmu", "harvard", "oxford", "cambridge",
   "nvidia", "huggingface", "salesforce", "adobe", "ibm", "amazon",
   "tsinghua", "peking", "tencent", "baidu", "alibaba"]

/-- `ComprehensiveScorer.self.top_conferences`. -/
def top_conferences : List String :=
  ["icml", "neurips", "iclr", "aaai", "ijcai", "acl", "emnlp", "naacl",
   "cvpr", "iccv", "eccv", "kdd", "www", "sigir", "wsdm", "icse", "fse"]

/-- The generator body checking `cs.AI in cat or cs.LG in cat` in
`_calculate_popularity_score`, with the short-circuiting Python `or`. -/
def categoryCheck (cat : PyVal) : Except String Bool := do
  let b ← pyInVal "cs.AI" cat
  if b then pure true else pyInVal "cs.LG" cat

/-- `ComprehensiveScorer._calculate_popularity_score`. -/
def calculate_popularity_score (item : PyDict) : Except String ℚ := do
  let source := dget item "source" (.str "unknown")
  if isStrEq source "github" then
    let stars := dget item "stars" (.num 0)
    if (← pyGe stars 10000) then pure 10.0
    else if (← pyGe stars 5000) then pure 9.0
    else if (← pyGe stars 1000) then pure 8.0
    else if (← pyGe stars 500) then pure 7.0
    else if (← pyGe stars 100) then pure 6.0
    else if (← pyGe stars 50) then pure 5.0
    else if (← pyGe stars 10) then pure 4.0
    else pure 3.0
  else if isStrEq source "arxiv" then do
    let abstract ← pyLowerMethod (dget item "abstract" (.str ""))
    let title ← pyLowerMethod (dget item "title" (.str ""))
    let conference_score : ℚ :=
      if top_conferences.any (fun conf => pyIn conf abstract || pyIn conf title) then 2 else 0
    let base_score : ℚ := 5.0 + conference_score
    let categories := dget item "categories" (.list [])
    let cats ← pyIter categories
    let hasPrestigious ← pyAnyM cats categoryCheck
    let base_score := if hasPrestigious then base_score + 1 else base_score
    pure (min base_score 10.0)
  else
    pure 5.0

/-- `ComprehensiveScorer._calculate_author_influence_score`. -/
def calculate_author_influence_score (item : PyDict) : Except String ℚ := do
  let source := dget item "source" (.str "unknown")
  let score : ℚ := 5.0
  let score ←
    if isStrEq source "arxiv" then do
      let authors := dget item "authors" (.list [])
      let author_text ←
        if pyTruthy authors then Except.map lowerStr (pyJoinSpace authors) else pure ""
      let score := if influential_orgs.any (fun org => pyIn org author_text) then score + 2 else score
      let n ← pyLen authors
      let score := if n ≥ 5 then score + 1 else if n ≥ 3 then score + 0.5 else score
      pure score
    else if isStrEq source "github" then do
      let url ← pyLowerMethod (dget item "url" (.str ""))
      let description ← pyLowerMethod (dget item "description" (.str ""))
      let score := if influential_orgs.any (fun org => pyIn org url || pyIn org description) then score + 2 else score
      let stars := dget item "stars" (.num 0)
      let score := if (← pyGe stars 1000) then score + 1 else score
      pure score
    else
      pure score
  pure (min score 10.0)

/-- Python 3 `round` to an integer: round half to even, on exact rationals. -/
def roundHalfEven (q : ℚ) : ℤ :=
  if q - ⌊q⌋ < 1/2 then ⌊q⌋
  else if 1/2 < q - ⌊q⌋ then ⌊q⌋ + 1
  else if ⌊q⌋ % 2 = 0 then ⌊q⌋ else ⌊q⌋ + 1

/-- Python `round(q, 2)`. -/
def round2 (q : ℚ) : ℚ := (roundHalfEven (q * 100) : ℚ) / 100

/-- The `scores` dict built by `calculate_comprehensive_score`: its keys are
exactly the six weighted dimensions, assigned once each. -/
structure Scores where
  popularity : ℚ
  technical_innovation : ℚ
  application_value : ℚ
  readability : ℚ
  experimental_thoroughness : ℚ
  author_influence : ℚ
  deriving DecidableEq

/-- `sum(scores[key] * self.weights[key] for key in self.weights.keys())`,
unrolled over the six keys of the weight table in insertion order. -/
def weightedSum (s : Scores) : ℚ :=
  s.popularity * 0.25 + s.technical_innovation * 0.20 + s.application_value * 0.10
    + s.readability * 0.15 + s.experimental_thoroughness * 0.15
    + s.author_influence * 0.15

/-- The dictionary returned by `calculate_comprehensive_score`. -/
structure ScoreResult where
  individual_scores : Scores
  final_score : ℚ
  score_breakdown : Scores
  deriving DecidableEq

/-- Python `llm_scores.get(key, default)` on the (typed `Dict[str, float]`)
subjective bundle. -/
def lget (d : List (String × ℚ)) (k : String) (dflt : ℚ) : ℚ :=
  match List.find? (fun p => p.1 == k) d with
  | some p => p.2
  | Option.none => dflt

/-- `ComprehensiveScorer.calculate_comprehensive_score`. -/
def calculate_comprehensive_score (item : PyDict) (llm_scores : List (String × ℚ)) :
    Except String ScoreResult := do
  let popularity ← calculate_popularity_score item
  let technical_innovation := lget llm_scores "technical_innovation" 5.0
  let application_value := lget llm_scores "application_value" 5.0
  let readability := lget llm_scores "readability" 5.0
  let experimental_thoroughness := lget llm_scores "experimental_thoroughness" 5.0
  let author_influence ← calculate_author_influence_score item
  let scores : Scores :=
    ⟨popularity, technical_innovation, application_value, readability,
     experimental_thoroughness, author_influence⟩
  pure
    { individual_scores := scores
      final_score := round2 (weightedSum scores)
      score_breakdown :=
        ⟨round2 (scores.popularity * 0.25),
         round2 (scores.technical_innovation * 0.20),
         round2 (scores.application_value * 0.10),
         round2 (scores.readability * 0.15),
         round2 (scores.experimental_thoroughness * 0.15),
         round2 (scores.author_influence * 0.15)⟩ }

/-- The `fallback_scoring` bundle of
`gpt_summarizer.GPTSummarizer._create_fallback_summary`. -/
def fallback_scoring : List (String × ℚ) :=
  [("technical_innovation", 5.0),
   ("application_value", 5.0),
   ("readability", 5.0),
   ("experimental_thoroughness", 5.0)]

/-- Is the value a Python number? -/
def isNumV : PyVal → Bool
  | .num _ => true
  | _ => false

/-- Is the value a Python string? -/
def isStrV : PyVal → Bool
  | .str _ => true
  | _ => false

/-- Is the value a Python list of strings? -/
def isStrListV : PyVal → Bool
  | .list xs => xs.all isStrV
  | _ => false

/-- An item whose metadata fields carry the types expected by the field
accesses of the scorer: a numeric `stars`, string `title` / `abstract` / `url` /
`description`, and `categories` / `authors` lists of strings (absent fields
take the well-typed defaults of the scorer, so they are fine). -/
def wellFormedItem (item : PyDict) : Bool :=
  isNumV (dget item "stars" (.num 0)) &&
  isStrV (dget item "title" (.str "")) &&
  isStrV (dget item "abstract" (.str "")) &&
  isStrV (dget item "url" (.str "")) &&
  isStrV (dget item "description" (.str "")) &&
  isStrListV (dget item "categories" (.list [])) &&
  isStrListV (dget item "authors" (.list []))

/-! ### Basic lemmas about the embedded primitives -/

theorem isStrEq_eq_false_of_ne {v : PyVal} {s : String} (h : v ≠ .str s) :
    isStrEq v s = false := by
  cases v with
  | str t =>
    simp only [isStrEq, beq_eq_false_iff_ne, ne_eq]
    intro he
    exact h (by rw [he])
  | none => rfl
  | num q => rfl
  | list xs => rfl

theorem roundHalfEven_intCast (z : ℤ) : roundHalfEven (z : ℚ) = z := by
  unfold roundHalfEven
  rw [Int.floor_intCast]
  norm_num

theorem round2_of_mul_eq_intCast (q : ℚ) (z : ℤ) (h : q * 100 = (z : ℚ)) :
    round2 q = q := by
  unfold round2
  rw [h, roundHalfEven_intCast]
  linarith

theorem roundHalfEven_bounds (x : ℚ) (h0 : 0 ≤ x) (h1 : x ≤ 1000) :
    0 ≤ roundHalfEven x ∧ roundHalfEven x ≤ 1000 := by
  have hf0 : (0 : ℤ) ≤ ⌊x⌋ := Int.floor_nonneg.mpr h0
  have hfle : (⌊x⌋ : ℚ) ≤ x := Int.floor_le x
  have hgt : x - 1 < (⌊x⌋ : ℚ) := Int.sub_one_lt_floor x
  have hf1 : ⌊x⌋ ≤ 1000 := by
    have h := Int.floor_le_floor (α := ℚ) h1
    have h1000 : ⌊(1000 : ℚ)⌋ = 1000 := by
      rw [show (1000 : ℚ) = ((1000 : ℤ) : ℚ) by norm_num, Int.floor_intCast]
    omega
  unfold roundHalfEven
  split_ifs with hr1 hr2 hev
  · exact ⟨hf0, hf1⟩
  · push_neg at hr1
    constructor
    · omega
    · have : (⌊x⌋ : ℚ) < 1000 := by linarith
      have : ⌊x⌋ < 1000 := by exact_mod_cast this
      omega
  · exact ⟨hf0, hf1⟩
  · push_neg at hr1 hr2
    constructor
    · omega
    · have : (⌊x⌋ : ℚ) < 1000 := by linarith
      have : ⌊x⌋ < 1000 := by exact_mod_cast this
      omega

theorem round2_bounds (q : ℚ) (h0 : 0 ≤ q) (h1 : q ≤ 10) :
    0 ≤ round2 q ∧ round2 q ≤ 10 := by
  obtain ⟨a, b⟩ := roundHalfEven_bounds (q * 100) (by linarith) (by linarith)
  have a' : (0 : ℚ) ≤ (roundHalfEven (q * 100) : ℚ) := by exact_mod_cast a
  have b' : ((roundHalfEven (q * 100) : ℚ)) ≤ 1000 := by exact_mod_cast b
  unfold round2
  constructor <;> linarith

/-! ### Inversion of `calculate_comprehensive_score` -/

theorem bindOk {α β : Type} (a : α) (f : α → Except String β) :
    (Except.ok a >>= f) = f a := rfl

theorem bindError {α β : Type} (e : String) (f : α → Except String β) :
    ((Except.error e : Except String α) >>= f) = Except.error e := rfl

theorem pureOk {α : Type} (a : α) : (pure a : Except String α) = Except.ok a := rfl

theorem calc_ok_components {item : PyDict} {llm : List (String × ℚ)} {r : ScoreResult}
    (h : calculate_comprehensive_score item llm = .ok r) :
    calculate_popularity_score item = .ok r.individual_scores.popularity ∧
    calculate_author_influence_score item = .ok r.individual_scores.author_influence ∧
    r.individual_scores.technical_innovation = lget llm "technical_innovation" 5.0 ∧
    r.individual_scores.application_value = lget llm "application_value" 5.0 ∧
    r.individual_scores.readability = lget llm "readability" 5.0 ∧
    r.individual_scores.experimental_thoroughness = lget llm "experimental_thoroughness" 5.0 ∧
    r.final_score = round2 (weightedSum r.individual_scores) ∧
    r.score_breakdown =
      ⟨round2 (r.individual_scores.popularity * 0.25),
       round2 (r.individual_scores.technical_innovation * 0.20),
       round2 (r.individual_scores.application_value * 0.10),
       round2 (r.individual_scores.readability * 0.15),
       round2 (r.individual_scores.experimental_thoroughness * 0.15),
       round2 (r.individual_scores.author_influence * 0.15)⟩ := by
  cases hp : calculate_popularity_score item with
  | error e =>
    simp only [calculate_comprehensive_score, hp, bindError] at h
    simp at h
  | ok p =>
    cases ha : calculate_author_influence_score item with
    | error e =>
      simp only [calculate_comprehensive_score, hp, ha, bindOk, Except.map_error] at h
      simp at h
    | ok a =>
      simp only [calculate_comprehensive_score, hp, ha, bindOk, Except.map_ok, pureOk,
        Except.ok.injEq] at h
      subst h
      simp [hp, ha]

theorem calc_ok_of_ok {item : PyDict} {llm : List (String × ℚ)} {p a : ℚ}
    (hp : calculate_popularity_score item = .ok p)
    (ha : calculate_author_influence_score item = .ok a) :
    ∃ r, calculate_comprehensive_score item llm = .ok r := by
  simp only [calculate_comprehensive_score, hp, ha, bindOk, Except.map_ok]
  exact ⟨_, rfl⟩

/-! ### Branch lemmas for the two metadata sub-scorers -/

theorem pop_github {item : PyDict} {n : ℚ}
    (hs : dget item "source" (.str "unknown") = .str "github")
    (hn : dget item "stars" (.num 0) = .num n) :
    calculate_popularity_score item = .ok
      (if n ≥ 10000 then 10.0 else if n ≥ 5000 then 9.0 else if n ≥ 1000 then 8.0
       else if n ≥ 500 then 7.0 else if n ≥ 100 then 6.0 else if n ≥ 50 then 5.0
       else if n ≥ 10 then 4.0 else 3.0) := by
  simp only [calculate_popularity_score, hs, hn, isStrEq, pyGe, bindOk, pureOk,
    beq_self_eq_true, if_true, decide_eq_true_eq]
  split_ifs <;> rfl

theorem pyAnyM_categoryCheck (cats : List String) :
    pyAnyM (cats.map PyVal.str) categoryCheck =
      .ok (cats.any (fun c => pyIn "cs.AI" c || pyIn "cs.LG" c)) := by
  induction cats with
  | nil => rfl
  | cons c rest ih =>
    simp only [List.map_cons, pyAnyM, categoryCheck, pyInVal, bindOk, pureOk, List.any_cons]
    cases h1 : pyIn "cs.AI" c
    · cases h2 : pyIn "cs.LG" c <;> simp [h1, h2, ih, bindOk, pureOk]
    · simp [h1, bindOk, pureOk]

theorem pop_arxiv {item : PyDict} {t a : String} {cats : List String}
    (hs : dget item "source" (.str "unknown") = .str "arxiv")
    (ha : dget item "abstract" (.str "") = .str a)
    (ht : dget item "title" (.str "") = .str t)
    (hc : dget item "categories" (.list []) = .list (cats.map PyVal.str)) :
    calculate_popularity_score item = .ok
      (min ((5.0 +
          (if top_conferences.any
              (fun conf => pyIn conf (lowerStr a) || pyIn conf (lowerStr t)) then 2 else 0))
        + (if cats.any (fun c => pyIn "cs.AI" c || pyIn "cs.LG" c) then 1 else 0)) 10.0) := by
  have hng : isStrEq (dget item "source" (.str "unknown")) "github" = false := by
    rw [hs]; rfl
  have hya : isStrEq (dget item "source" (.str "unknown")) "arxiv" = true := by
    rw [hs]; rfl
  simp only [calculate_popularity_score, hng, hya, Bool.false_eq_true, if_false, if_true,
    ha, ht, hc, pyLowerMethod, pyIter, bindOk, pureOk, pyAnyM_categoryCheck]
  split_ifs <;> norm_num

theorem pop_default {item : PyDict}
    (h1 : isStrEq (dget item "source" (.str "unknown")) "github" = false)
    (h2 : isStrEq (dget item "source" (.str "unknown")) "arxiv" = false) :
    calculate_popularity_score item = .ok 5.0 := by
  simp only [calculate_popularity_score, h1, h2, Bool.false_eq_true, if_false, pureOk]

theorem strListOfVals_map (l : List String) :
    strListOfVals (l.map PyVal.str) = .ok l := by
  induction l with
  | nil => rfl
  | cons s rest ih => simp [strListOfVals, ih, Except.map]

theorem ai_arxiv {item : PyDict} {auths : List String}
    (hs : dget item "source" (.str "unknown") = .str "arxiv")
    (hauth : dget item "authors" (.list []) = .list (auths.map PyVal.str)) :
    calculate_author_influence_score item = .ok
      (min ((5.0 +
          (if influential_orgs.any
              (fun org => pyIn org (lowerStr (String.intercalate " " auths))) then 2 else 0))
        + (if auths.length ≥ 5 then 1 else if auths.length ≥ 3 then 0.5 else 0)) 10.0) := by
  have hya : isStrEq (dget item "source" (.str "unknown")) "arxiv" = true := by
    rw [hs]; rfl
  simp only [calculate_author_influence_score, hya, if_true, hauth,
    pyTruthy, pyJoinSpace, pyLen, strListOfVals_map, Except.map, bindOk, pureOk]
  cases auths with
  | nil =>
    simp
    rw [show lowerStr (String.intercalate " " ([] : List String)) = "" from rfl]
    split_ifs <;> norm_num
  | cons a rest =>
    simp only [List.map_cons, List.isEmpty_cons, Bool.not_false, if_true, bindOk, pureOk,
      List.length_cons, List.length_map]
    split_ifs <;> norm_num

theorem ai_github {item : PyDict} {u d : String} {s : ℚ}
    (hs : dget item "source" (.str "unknown") = .str "github")
    (hu : dget item "url" (.str "") = .str u)
    (hd : dget item "description" (.str "") = .str d)
    (hstars : dget item "stars" (.num 0) = .num s) :
    calculate_author_influence_score item = .ok
      (min ((5.0 +
          (if influential_orgs.any
              (fun org => pyIn org (lowerStr u) || pyIn org (lowerStr d)) then 2 else 0))
        + (if s ≥ 1000 then 1 else 0)) 10.0) := by
  have hna : isStrEq (dget item "source" (.str "unknown")) "arxiv" = false := by
    rw [hs]; rfl
  have hyg : isStrEq (dget item "source" (.str "unknown")) "github" = true := by
    rw [hs]; rfl
  simp only [calculate_author_influence_score, hna, hyg, Bool.false_eq_true, if_false, if_true,
    hu, hd, hstars, pyLowerMethod, pyGe, bindOk, pureOk, decide_eq_true_eq]
  split_ifs <;> norm_num

theorem ai_default {item : PyDict}
    (h1 : isStrEq (dget item "source" (.str "unknown")) "arxiv" = false)
    (h2 : isStrEq (dget item "source" (.str "unknown")) "github" = false) :
    calculate_author_influence_score item = .ok 5.0 := by
  simp only [calculate_author_influence_score, h1, h2, Bool.false_eq_true, if_false, bindOk,
    pureOk]
  norm_num

theorem lget_eq_default {d : List (String × ℚ)} {k : String} {dflt : ℚ}
    (h : List.find? (fun p => p.1 == k) d = Option.none) : lget d k dflt = dflt := by
  unfold lget; rw [h]

theorem lget_eq_val {d : List (String × ℚ)} {k : String} {dflt : ℚ} {p : String × ℚ}
    (h : List.find? (fun p => p.1 == k) d = some p) : lget d k dflt = p.2 := by
  unfold lget; rw [h]

theorem round2_eq_of (q v : ℚ) (z : ℤ) (h1 : q * 100 = (z : ℚ)) (h2 : (z : ℚ) / 100 = v) :
    round2 q = v := by
  unfold round2
  rw [h1, roundHalfEven_intCast, h2]

/-! ### The claims -/

/-- Claim C1: for every item and every subjective bundle whose six resulting
dimension values each lie in [0,10], the `final_score` produced by
`calculate_comprehensive_score` — the weighted sum under the fixed weight
table, rounded to 2 decimal places — lies in [0,10], even though the code
applies no clamp after rounding. -/
theorem final_score_in_range (item : PyDict) (llm : List (String × ℚ)) (r : ScoreResult)
    (h : calculate_comprehensive_score item llm = .ok r)
    (h1 : 0 ≤ r.individual_scores.popularity ∧ r.individual_scores.popularity ≤ 10)
    (h2 : 0 ≤ r.individual_scores.technical_innovation ∧
      r.individual_scores.technical_innovation ≤ 10)
    (h3 : 0 ≤ r.individual_scores.application_value ∧
      r.individual_scores.application_value ≤ 10)
    (h4 : 0 ≤ r.individual_scores.readability ∧ r.individual_scores.readability ≤ 10)
    (h5 : 0 ≤ r.individual_scores.experimental_thoroughness ∧
      r.individual_scores.experimental_thoroughness ≤ 10)
    (h6 : 0 ≤ r.individual_scores.author_influence ∧
      r.individual_scores.author_influence ≤ 10) :
    0 ≤ r.final_score ∧ r.final_score ≤ 10 := by
  obtain ⟨-, -, -, -, -, -, hf, -⟩ := calc_ok_components h
  rw [hf]
  have hA : 0 ≤ weightedSum r.individual_scores := by
    unfold weightedSum
    nlinarith [h1.1, h2.1, h3.1, h4.1, h5.1, h6.1]
  have hB : weightedSum r.individual_scores ≤ 10 := by
    unfold weightedSum
    nlinarith [h1.2, h2.2, h3.2, h4.2, h5.2, h6.2]
  exact round2_bounds _ hA hB

theorem final_score_in_range_witness :
    0 ≤ (ScoreResult.mk ⟨6, 5, 5, 5, 5, 5⟩ 5.25 ⟨1.5, 1, 0.5, 0.75, 0.75, 0.75⟩).final_score ∧
    (ScoreResult.mk ⟨6, 5, 5, 5, 5, 5⟩ 5.25 ⟨1.5, 1, 0.5, 0.75, 0.75, 0.75⟩).final_score ≤ 10 := by
  have hpop : calculate_popularity_score
      [("source", PyVal.str "github"), ("stars", PyVal.num 200)] = .ok 6 := by
    have h := @pop_github [("source", PyVal.str "github"), ("stars", PyVal.num 200)]
      200 rfl rfl
    norm_num at h
    exact h
  have hai : calculate_author_influence_score
      [("source", PyVal.str "github"), ("stars", PyVal.num 200)] = .ok 5 := by
    have h := @ai_github [("source", PyVal.str "github"), ("stars", PyVal.num 200)]
      "" "" 200 rfl rfl rfl rfl
    simp +decide at h
    norm_num at h
    exact h
  have hcalc : calculate_comprehensive_score
      [("source", PyVal.str "github"), ("stars", PyVal.num 200)] [] =
      .ok (ScoreResult.mk ⟨6, 5, 5, 5, 5, 5⟩ 5.25 ⟨1.5, 1, 0.5, 0.75, 0.75, 0.75⟩) := by
    simp only [calculate_comprehensive_score, hpop, hai, bindOk, Except.map_ok, pureOk,
      Except.ok.injEq]
    simp only [ScoreResult.mk.injEq, Scores.mk.injEq]
    norm_num [lget]
    refine ⟨?_, ?_, ?_, ?_, ?_⟩
    · rw [show weightedSum ⟨6, 5, 5, 5, 5, 5⟩ = (21/4 : ℚ) from by norm_num [weightedSum]]
      exact round2_eq_of _ _ 525 (by norm_num) (by norm_num)
    · exact round2_eq_of _ _ 150 (by norm_num) (by norm_num)
    · exact round2_eq_of _ _ 100 (by norm_num) (by norm_num)
    · exact round2_eq_of _ _ 50 (by norm_num) (by norm_num)
    · exact round2_eq_of _ _ 75 (by norm_num) (by norm_num)
  exact final_score_in_range _ _ _ hcalc (by norm_num) (by norm_num) (by norm_num)
    (by norm_num) (by norm_num) (by norm_num)

/-- Claim C2: for every item of repository kind, the popularity sub-score is
exactly the tier table with inclusive lower bounds, first matching threshold
wins: stars >= 10000 gives 10.0, >= 5000 gives 9.0, >= 1000 gives 8.0,
>= 500 gives 7.0, >= 100 gives 6.0, >= 50 gives 5.0, >= 10 gives 4.0,
otherwise 3.0; a star count exactly at a threshold maps to the higher tier. -/
theorem popularity_github_tiers (item : PyDict) (n : ℚ)
    (hs : dget item "source" (.str "unknown") = .str "github")
    (hn : dget item "stars" (.num 0) = .num n) :
    calculate_popularity_score item = .ok
      (if n ≥ 10000 then 10.0 else if n ≥ 5000 then 9.0 else if n ≥ 1000 then 8.0
       else if n ≥ 500 then 7.0 else if n ≥ 100 then 6.0 else if n ≥ 50 then 5.0
       else if n ≥ 10 then 4.0 else 3.0) :=
  pop_github hs hn

theorem popularity_github_tiers_witness :
    calculate_popularity_score [("source", PyVal.str "github"), ("stars", PyVal.num 10)]
      = .ok 4.0 ∧
    calculate_popularity_score [("source", PyVal.str "github"), ("stars", PyVal.num 50)]
      = .ok 5.0 ∧
    calculate_popularity_score [("source", PyVal.str "github"), ("stars", PyVal.num 100)]
      = .ok 6.0 ∧
    calculate_popularity_score [("source", PyVal.str "github"), ("stars", PyVal.num 500)]
      = .ok 7.0 ∧
    calculate_popularity_score [("source", PyVal.str "github"), ("stars", PyVal.num 1000)]
      = .ok 8.0 ∧
    calculate_popularity_score [("source", PyVal.str "github"), ("stars", PyVal.num 5000)]
      = .ok 9.0 ∧
    calculate_popularity_score [("source", PyVal.str "github"), ("stars", PyVal.num 10000)]
      = .ok 10.0 ∧
    calculate_popularity_score [("source", PyVal.str "github"), ("stars", PyVal.num 9)]
      = .ok 3.0 := by
  refine ⟨?_, ?_, ?_, ?_, ?_, ?_, ?_, ?_⟩
  · have h := popularity_github_tiers
      [("source", PyVal.str "github"), ("stars", PyVal.num 10)] 10 rfl rfl
    norm_num at h ⊢; exact h
  · have h := popularity_github_tiers
      [("source", PyVal.str "github"), ("stars", PyVal.num 50)] 50 rfl rfl
    norm_num at h ⊢; exact h
  · have h := popularity_github_tiers
      [("source", PyVal.str "github"), ("stars", PyVal.num 100)] 100 rfl rfl
    norm_num at h ⊢; exact h
  · have h := popularity_github_tiers
      [("source", PyVal.str "github"), ("stars", PyVal.num 500)] 500 rfl rfl
    norm_num at h ⊢; exact h
  · have h := popularity_github_tiers
      [("source", PyVal.str "github"), ("stars", PyVal.num 1000)] 1000 rfl rfl
    norm_num at h ⊢; exact h
  · have h := popularity_github_tiers
      [("source", PyVal.str "github"), ("stars", PyVal.num 5000)] 5000 rfl rfl
    norm_num at h ⊢; exact h
  · have h := popularity_github_tiers
      [("source", PyVal.str "github"), ("stars", PyVal.num 10000)] 10000 rfl rfl
    norm_num at h ⊢; exact h
  · have h := popularity_github_tiers
      [("source", PyVal.str "github"), ("stars", PyVal.num 9)] 9 rfl rfl
    norm_num at h ⊢; exact h

/-- Claim C3: for every item, calling the scoring operation with an empty
subjective bundle yields 5.0 for all four subjective dimensions in
`individual_scores`; more generally each key absent from the bundle is
individually substituted with 5.0 while present keys are used. -/
theorem missing_llm_keys_default (item : PyDict) (llm : List (String × ℚ)) (r : ScoreResult)
    (h : calculate_comprehensive_score item llm = .ok r) :
    (llm = [] →
      r.individual_scores.technical_innovation = 5.0 ∧
      r.individual_scores.application_value = 5.0 ∧
      r.individual_scores.readability = 5.0 ∧
      r.individual_scores.experimental_thoroughness = 5.0) ∧
    (List.find? (fun p => p.1 == "technical_innovation") llm = Option.none →
      r.individual_scores.technical_innovation = 5.0) ∧
    (∀ p, List.find? (fun p => p.1 == "technical_innovation") llm = some p →
      r.individual_scores.technical_innovation = p.2) ∧
    (List.find? (fun p => p.1 == "application_value") llm = Option.none →
      r.individual_scores.application_value = 5.0) ∧
    (∀ p, List.find? (fun p => p.1 == "application_value") llm = some p →
      r.individual_scores.application_value = p.2) ∧
    (List.find? (fun p => p.1 == "readability") llm = Option.none →
      r.individual_scores.readability = 5.0) ∧
    (∀ p, List.find? (fun p => p.1 == "readability") llm = some p →
      r.individual_scores.readability = p.2) ∧
    (List.find? (fun p => p.1 == "experimental_thoroughness") llm = Option.none →
      r.individual_scores.experimental_thoroughness = 5.0) ∧
    (∀ p, List.find? (fun p => p.1 == "experimental_thoroughness") llm = some p →
      r.individual_scores.experimental_thoroughness = p.2) := by
  obtain ⟨-, -, hti, hav, hrd, het, -, -⟩ := calc_ok_components h
  refine ⟨?_, ?_, ?_, ?_, ?_, ?_, ?_, ?_, ?_⟩
  · rintro rfl
    exact ⟨hti, hav, hrd, het⟩
  · intro hf; rw [hti, lget_eq_default hf]
  · intro p hf; rw [hti, lget_eq_val hf]
  · intro hf; rw [hav, lget_eq_default hf]
  · intro p hf; rw [hav, lget_eq_val hf]
  · intro hf; rw [hrd, lget_eq_default hf]
  · intro p hf; rw [hrd, lget_eq_val hf]
  · intro hf; rw [het, lget_eq_default hf]
  · intro p hf; rw [het, lget_eq_val hf]

theorem calc_blog_eval :
    calculate_comprehensive_score [("source", PyVal.str "blog")] [] =
      .ok ⟨⟨5, 5, 5, 5, 5, 5⟩, 5, ⟨1.25, 1, 0.5, 0.75, 0.75, 0.75⟩⟩ := by
  have hg : isStrEq (dget [("source", PyVal.str "blog")] "source" (.str "unknown"))
      "github" = false := rfl
  have ha : isStrEq (dget [("source", PyVal.str "blog")] "source" (.str "unknown"))
      "arxiv" = false := rfl
  have hpop := pop_default hg ha
  have hai := ai_default ha hg
  simp only [calculate_comprehensive_score, hpop, hai, bindOk, Except.map_ok, pureOk,
    Except.ok.injEq, ScoreResult.mk.injEq, Scores.mk.injEq]
  norm_num [lget]
  refine ⟨?_, ?_, ?_, ?_, ?_⟩
  · rw [show weightedSum ⟨5, 5, 5, 5, 5, 5⟩ = (5 : ℚ) from by norm_num [weightedSum]]
    exact round2_eq_of _ _ 500 (by norm_num) (by norm_num)
  · exact round2_eq_of _ _ 125 (by norm_num) (by norm_num)
  · exact round2_eq_of _ _ 100 (by norm_num) (by norm_num)
  · exact round2_eq_of _ _ 50 (by norm_num) (by norm_num)
  · exact round2_eq_of _ _ 75 (by norm_num) (by norm_num)

theorem missing_llm_keys_default_witness :
    (ScoreResult.mk ⟨5, 5, 5, 5, 5, 5⟩ 5
        ⟨1.25, 1, 0.5, 0.75, 0.75, 0.75⟩).individual_scores.technical_innovation = 5.0 ∧
    (ScoreResult.mk ⟨5, 5, 5, 5, 5, 5⟩ 5
        ⟨1.25, 1, 0.5, 0.75, 0.75, 0.75⟩).individual_scores.application_value = 5.0 ∧
    (ScoreResult.mk ⟨5, 5, 5, 5, 5, 5⟩ 5
        ⟨1.25, 1, 0.5, 0.75, 0.75, 0.75⟩).individual_scores.readability = 5.0 ∧
    (ScoreResult.mk ⟨5, 5, 5, 5, 5, 5⟩ 5
        ⟨1.25, 1, 0.5, 0.75, 0.75, 0.75⟩).individual_scores.experimental_thoroughness = 5.0 :=
  (missing_llm_keys_default _ _ _ calc_blog_eval).1 rfl

/-- Claim C4: the author_influence sub-score equals base 5.0 plus, for paper
kind, +2.0 if any influential-organization fragment occurs as a substring of
the case-folded space-joined author names (first match only) plus +1.0 if the
author count is at least 5, else +0.5 if at least 3; for repository kind,
+2.0 if any such fragment occurs in the case-folded URL or description plus
+1.0 if stars >= 1000; the result is clamped to at most 10.0 in both paths. -/
theorem author_influence_formula (item : PyDict) :
    (∀ auths : List String,
        dget item "source" (.str "unknown") = .str "arxiv" →
        dget item "authors" (.list []) = .list (auths.map PyVal.str) →
        calculate_author_influence_score item = .ok
          (min ((5.0 + (if influential_orgs.any
                (fun org => pyIn org (lowerStr (String.intercalate " " auths)))
              then 2 else 0))
            + (if auths.length ≥ 5 then 1 else if auths.length ≥ 3 then 0.5 else 0)) 10.0)) ∧
    (∀ (u d : String) (s : ℚ),
        dget item "source" (.str "unknown") = .str "github" →
        dget item "url" (.str "") = .str u →
        dget item "description" (.str "") = .str d →
        dget item "stars" (.num 0) = .num s →
        calculate_author_influence_score item = .ok
          (min ((5.0 + (if influential_orgs.any
                (fun org => pyIn org (lowerStr u) || pyIn org (lowerStr d)) then 2 else 0))
            + (if s ≥ 1000 then 1 else 0)) 10.0)) :=
  ⟨fun _ hs ha => ai_arxiv hs ha, fun _ _ _ hs hu hd hst => ai_github hs hu hd hst⟩

theorem author_influence_formula_witness :
    calculate_author_influence_score
      [("source", PyVal.str "arxiv"),
       ("authors", PyVal.list [PyVal.str "Alice Chen (Stanford University)",
                               PyVal.str "Bob Lee", PyVal.str "Carol Wu"])] = .ok 7.5 := by
  have h := (author_influence_formula
      [("source", PyVal.str "arxiv"),
       ("authors", PyVal.list [PyVal.str "Alice Chen (Stanford University)",
                               PyVal.str "Bob Lee", PyVal.str "Carol Wu"])]).1
    ["Alice Chen (Stanford University)", "Bob Lee", "Carol Wu"] rfl rfl
  simp +decide at h
  norm_num at h ⊢
  exact h

/-- Claim C5: for every item of paper kind, the popularity sub-score equals
5.0, plus 2.0 if the case-folded title or abstract contains any top-tier
venue acronym as a substring (first match only), plus 1.0 if any category tag
contains "cs.AI" or "cs.LG" as a substring, clamped to at most 10.0. -/
theorem popularity_arxiv_formula (item : PyDict) (t a : String) (cats : List String)
    (hs : dget item "source" (.str "unknown") = .str "arxiv")
    (ha : dget item "abstract" (.str "") = .str a)
    (ht : dget item "title" (.str "") = .str t)
    (hc : dget item "categories" (.list []) = .list (cats.map PyVal.str)) :
    calculate_popularity_score item = .ok
      (min ((5.0 +
          (if top_conferences.any
              (fun conf => pyIn conf (lowerStr a) || pyIn conf (lowerStr t)) then 2 else 0))
        + (if cats.any (fun c => pyIn "cs.AI" c || pyIn "cs.LG" c) then 1 else 0)) 10.0) :=
  pop_arxiv hs ha ht hc

theorem popularity_arxiv_formula_witness :
    calculate_popularity_score
      [("source", PyVal.str "arxiv"),
       ("title", PyVal.str "A Study of Code Agents"),
       ("abstract", PyVal.str "We analyze agents."),
       ("categories", PyVal.list [PyVal.str "cs.AI", PyVal.str "cs.SE"])] = .ok 6.0 := by
  have h := popularity_arxiv_formula
    [("source", PyVal.str "arxiv"),
     ("title", PyVal.str "A Study of Code Agents"),
     ("abstract", PyVal.str "We analyze agents."),
     ("categories", PyVal.list [PyVal.str "cs.AI", PyVal.str "cs.SE"])]
    "A Study of Code Agents" "We analyze agents." ["cs.AI", "cs.SE"] rfl rfl rfl rfl
  simp +decide at h
  norm_num at h ⊢
  exact h

set_option maxHeartbeats 1600000 in
/-- Claim C6: the popularity sub-score is monotonic non-decreasing in star
count: for repository items identical except for star counts n <= m, the
popularity score for n is at most the popularity score for m. -/
theorem popularity_monotone_in_stars (i₁ i₂ : PyDict) (n m : ℚ)
    (hs₁ : dget i₁ "source" (.str "unknown") = .str "github")
    (hs₂ : dget i₂ "source" (.str "unknown") = .str "github")
    (hn : dget i₁ "stars" (.num 0) = .num n)
    (hm : dget i₂ "stars" (.num 0) = .num m)
    (hnm : n ≤ m) (p₁ p₂ : ℚ)
    (h₁ : calculate_popularity_score i₁ = .ok p₁)
    (h₂ : calculate_popularity_score i₂ = .ok p₂) :
    p₁ ≤ p₂ := by
  rw [pop_github hs₁ hn, Except.ok.injEq] at h₁
  rw [pop_github hs₂ hm, Except.ok.injEq] at h₂
  subst h₁ h₂
  split_ifs <;> linarith

theorem popularity_monotone_in_stars_witness : (4.0 : ℚ) ≤ 5.0 := by
  have h₁ : calculate_popularity_score
      [("source", PyVal.str "github"), ("stars", PyVal.num 40)] = .ok 4.0 := by
    have h := @pop_github [("source", PyVal.str "github"), ("stars", PyVal.num 40)]
      40 rfl rfl
    norm_num at h ⊢
    exact h
  have h₂ : calculate_popularity_score
      [("source", PyVal.str "github"), ("stars", PyVal.num 75)] = .ok 5.0 := by
    have h := @pop_github [("source", PyVal.str "github"), ("stars", PyVal.num 75)]
      75 rfl rfl
    norm_num at h ⊢
    exact h
  exact popularity_monotone_in_stars
    [("source", PyVal.str "github"), ("stars", PyVal.num 40)]
    [("source", PyVal.str "github"), ("stars", PyVal.num 75)]
    40 75 rfl rfl rfl rfl (by norm_num) 4.0 5.0 h₁ h₂

/-- Claim C7: for every item whose source kind is neither "github" nor
"arxiv", the popularity sub-score and the author_influence sub-score are both
the flat 5.0; with an empty subjective bundle all six individual scores are
5.0 and the final_score is exactly 5.0. -/
theorem unknown_source_neutral (item : PyDict)
    (hg : dget item "source" (.str "unknown") ≠ .str "github")
    (ha : dget item "source" (.str "unknown") ≠ .str "arxiv") :
    calculate_popularity_score item = .ok 5.0 ∧
    calculate_author_influence_score item = .ok 5.0 ∧
    ∀ r, calculate_comprehensive_score item [] = .ok r →
      r.individual_scores = ⟨5.0, 5.0, 5.0, 5.0, 5.0, 5.0⟩ ∧ r.final_score = 5.0 := by
  have h1 := isStrEq_eq_false_of_ne hg
  have h2 := isStrEq_eq_false_of_ne ha
  have hpop := pop_default h1 h2
  have hai := ai_default h2 h1
  refine ⟨hpop, hai, fun r hr => ?_⟩
  obtain ⟨cp, ca, cti, cav, crd, cet, cf, -⟩ := calc_ok_components hr
  rw [hpop, Except.ok.injEq] at cp
  rw [hai, Except.ok.injEq] at ca
  have hscores : r.individual_scores = ⟨5.0, 5.0, 5.0, 5.0, 5.0, 5.0⟩ := by
    have e : r.individual_scores = ⟨r.individual_scores.popularity,
        r.individual_scores.technical_innovation, r.individual_scores.application_value,
        r.individual_scores.readability, r.individual_scores.experimental_thoroughness,
        r.individual_scores.author_influence⟩ := rfl
    rw [e, ← cp, ← ca, cti, cav, crd, cet]
    rfl
  refine ⟨hscores, ?_⟩
  rw [cf, hscores]
  rw [show weightedSum ⟨5.0, 5.0, 5.0, 5.0, 5.0, 5.0⟩ = (5 : ℚ) from by norm_num [weightedSum]]
  exact round2_eq_of _ _ 500 (by norm_num) (by norm_num)

theorem unknown_source_neutral_witness :
    calculate_popularity_score [("source", PyVal.str "blog")] = .ok 5.0 ∧
    calculate_author_influence_score [("source", PyVal.str "blog")] = .ok 5.0 ∧
    (ScoreResult.mk ⟨5, 5, 5, 5, 5, 5⟩ 5
        ⟨1.25, 1, 0.5, 0.75, 0.75, 0.75⟩).individual_scores = ⟨5.0, 5.0, 5.0, 5.0, 5.0, 5.0⟩ ∧
    (ScoreResult.mk ⟨5, 5, 5, 5, 5, 5⟩ 5
        ⟨1.25, 1, 0.5, 0.75, 0.75, 0.75⟩).final_score = 5.0 := by
  have hne1 : dget [("source", PyVal.str "blog")] "source" (.str "unknown") ≠ .str "github" := by
    intro h
    injection h with h'
    exact absurd h' (by decide)
  have hne2 : dget [("source", PyVal.str "blog")] "source" (.str "unknown") ≠ .str "arxiv" := by
    intro h
    injection h with h'
    exact absurd h' (by decide)
  obtain ⟨w1, w2, w3⟩ := unknown_source_neutral [("source", PyVal.str "blog")] hne1 hne2
  exact ⟨w1, w2, w3 _ calc_blog_eval⟩

theorem isStrEq_eq_true_iff {v : PyVal} {s : String} :
    isStrEq v s = true ↔ v = .str s := by
  cases v <;> simp [isStrEq]

theorem isNumV_exists {v : PyVal} (h : isNumV v = true) : ∃ q, v = .num q := by
  cases v with
  | num q => exact ⟨q, rfl⟩
  | none => simp [isNumV] at h
  | str s => simp [isNumV] at h
  | list xs => simp [isNumV] at h

theorem isStrV_exists {v : PyVal} (h : isStrV v = true) : ∃ s, v = .str s := by
  cases v with
  | str s => exact ⟨s, rfl⟩
  | none => simp [isStrV] at h
  | num q => simp [isStrV] at h
  | list xs => simp [isStrV] at h

theorem all_isStrV_exists {xs : List PyVal} (h : xs.all isStrV = true) :
    ∃ l : List String, xs = l.map PyVal.str := by
  induction xs with
  | nil => exact ⟨[], rfl⟩
  | cons x rest ih =>
    rw [List.all_cons, Bool.and_eq_true] at h
    obtain ⟨hx, hrest⟩ := h
    obtain ⟨l, hl⟩ := ih hrest
    obtain ⟨s, rfl⟩ := isStrV_exists hx
    exact ⟨s :: l, by rw [List.map_cons, ← hl]⟩

theorem isStrListV_exists {v : PyVal} (h : isStrListV v = true) :
    ∃ l : List String, v = .list (l.map PyVal.str) := by
  cases v with
  | list xs =>
    obtain ⟨l, hl⟩ := all_isStrV_exists (by simpa [isStrListV] using h)
    exact ⟨l, by rw [hl]⟩
  | none => simp [isStrListV] at h
  | num q => simp [isStrListV] at h
  | str s => simp [isStrListV] at h

/-- Claim C8 (counterexample): with a non-numeric `stars` field, the very
first tier comparison raises `TypeError`, so `calculate_comprehensive_score`
does not return a `ScoreResult`. -/
theorem malformed_stars_raises :
    calculate_comprehensive_score
      [("source", PyVal.str "github"), ("stars", PyVal.str "many")] [] =
      .error "TypeError" := rfl

/-- Claim C8 (amended): the scoring operation returns a `ScoreResult` for
every bundle and every item whose present metadata fields are well-typed
(numeric stars, string title / abstract / url / description, categories and
authors lists of strings); a malformed numeric field such as a string
`stars` raises `TypeError` instead of being treated as absent/zero. -/
theorem wellformed_no_error (item : PyDict) (llm : List (String × ℚ))
    (h : wellFormedItem item = true) :
    ∃ r, calculate_comprehensive_score item llm = .ok r := by
  simp only [wellFormedItem, Bool.and_eq_true] at h
  obtain ⟨⟨⟨⟨⟨⟨hstars, htitle⟩, habs⟩, hurl⟩, hdesc⟩, hcats⟩, hauths⟩ := h
  obtain ⟨ns, hns⟩ := isNumV_exists hstars
  obtain ⟨st, hst⟩ := isStrV_exists htitle
  obtain ⟨sa, hsa⟩ := isStrV_exists habs
  obtain ⟨su, hsu⟩ := isStrV_exists hurl
  obtain ⟨sd, hsd⟩ := isStrV_exists hdesc
  obtain ⟨lc, hlc⟩ := isStrListV_exists hcats
  obtain ⟨la, hla⟩ := isStrListV_exists hauths
  cases hgithub : isStrEq (dget item "source" (.str "unknown")) "github" with
  | true =>
    have hs := isStrEq_eq_true_iff.mp hgithub
    exact calc_ok_of_ok (pop_github hs hns) (ai_github hs hsu hsd hns)
  | false =>
    cases harxiv : isStrEq (dget item "source" (.str "unknown")) "arxiv" with
    | true =>
      have hs := isStrEq_eq_true_iff.mp harxiv
      exact calc_ok_of_ok (pop_arxiv hs hsa hst hlc) (ai_arxiv hs hla)
    | false =>
      exact calc_ok_of_ok (pop_default hgithub harxiv) (ai_default harxiv hgithub)

theorem wellformed_no_error_witness :
    ∃ r, calculate_comprehensive_score
      [("source", PyVal.str "github"), ("stars", PyVal.num 12)] [] = .ok r :=
  wellformed_no_error [("source", PyVal.str "github"), ("stars", PyVal.num 12)] [] rfl

/-- Claim C9: for every item, scoring with the explicit summarizer fallback
bundle (all four subjective keys present and set to 5.0) yields a ScoreResult
identical to scoring the same item with an empty bundle — the fallback path
and the missing-key default path are equivalent. -/
theorem fallback_bundle_equiv_empty (item : PyDict) :
    calculate_comprehensive_score item fallback_scoring =
      calculate_comprehensive_score item [] := rfl

/-- Claim C10: the engine never clamps or validates the subjective bundle
values: every present bundle key is copied verbatim into
`individual_scores`, even outside [0,10], and such a value propagates into
`final_score` and `score_breakdown` — a bundle value of 40 makes the final
score 12, above 10. -/
theorem llm_scores_unclamped :
    (∀ (item : PyDict) (llm : List (String × ℚ)) (r : ScoreResult),
      calculate_comprehensive_score item llm = .ok r →
      (∀ p, List.find? (fun q => q.1 == "technical_innovation") llm = some p →
          r.individual_scores.technical_innovation = p.2) ∧
      (∀ p, List.find? (fun q => q.1 == "application_value") llm = some p →
          r.individual_scores.application_value = p.2) ∧
      (∀ p, List.find? (fun q => q.1 == "readability") llm = some p →
          r.individual_scores.readability = p.2) ∧
      (∀ p, List.find? (fun q => q.1 == "experimental_thoroughness") llm = some p →
          r.individual_scores.experimental_thoroughness = p.2)) ∧
    calculate_comprehensive_score [("source", PyVal.str "blog")]
        [("technical_innovation", 40)] =
      .ok ⟨⟨5, 40, 5, 5, 5, 5⟩, 12, ⟨1.25, 8, 0.5, 0.75, 0.75, 0.75⟩⟩ ∧
    ((12 : ℚ) > 10) := by
  refine ⟨?_, ?_, by norm_num⟩
  · intro item llm r h
    obtain ⟨-, -, hti, hav, hrd, het, -, -⟩ := calc_ok_components h
    exact ⟨fun p hp => by rw [hti, lget_eq_val hp],
           fun p hp => by rw [hav, lget_eq_val hp],
           fun p hp => by rw [hrd, lget_eq_val hp],
           fun p hp => by rw [het, lget_eq_val hp]⟩
  · have hg : isStrEq (dget [("source", PyVal.str "blog")] "source" (.str "unknown"))
        "github" = false := rfl
    have ha : isStrEq (dget [("source", PyVal.str "blog")] "source" (.str "unknown"))
        "arxiv" = false := rfl
    have hpop := pop_default hg ha
    have hai := ai_default ha hg
    simp only [calculate_comprehensive_score, hpop, hai, bindOk, Except.map_ok, pureOk,
      Except.ok.injEq, ScoreResult.mk.injEq, Scores.mk.injEq]
    simp +decide [lget]
    norm_num
    refine ⟨?_, ?_, ?_, ?_, ?_⟩
    · rw [show weightedSum ⟨5, 40, 5, 5, 5, 5⟩ = (12 : ℚ) from by norm_num [weightedSum]]
      exact round2_eq_of _ _ 1200 (by norm_num) (by norm_num)
    · exact round2_eq_of _ _ 125 (by norm_num) (by norm_num)
    · exact round2_eq_of _ _ 800 (by norm_num) (by norm_num)
    · exact round2_eq_of _ _ 50 (by norm_num) (by norm_num)
    · exact round2_eq_of _ _ 75 (by norm_num) (by norm_num)

theorem llm_scores_unclamped_witness :
    (ScoreResult.mk ⟨5, 40, 5, 5, 5, 5⟩ 12
        ⟨1.25, 8, 0.5, 0.75, 0.75, 0.75⟩).individual_scores.technical_innovation = (40 : ℚ) :=
  (llm_scores_unclamped.1 [("source", PyVal.str "blog")] [("technical_innovation", 40)] _
      llm_scores_unclamped.2.1).1 ("technical_innovation", 40) rfl
